import Mathlib

/-!
Verification of the `awesome_api` Flask application
(`src/awesome_api/__init__.py` and `src/tests/test_app.py`).

The repository code registers a single route `/` whose handler returns the
dict with key `message` and value `Welcome to Awesome API!`.  The web
framework (Flask) dispatches requests, serializes dict return values to a
JSON body with status 200 and content type `application/json`, and supplies
the default behavior for unmatched paths and methods.  The framework is an
external dependency, so its dispatch behavior is modelled here from its
documented defaults and from the spec's description of it.
-/

namespace AwesomeApi

/-- An HTTP request as seen by the application: method, path, query string
parameters, headers and body.  The spec calls this "the request object". -/
structure Request where
  method : String
  path : String
  query : List (String × String)
  headers : List (String × String)
  body : String
deriving DecidableEq, Repr

/-- An HTTP response: status code, headers and body text. -/
structure Response where
  status : Nat
  headers : List (String × String)
  body : String
deriving DecidableEq, Repr

/-- A Python exception raised by a handler.  The source handler raises
nothing; this type exists so fallible handler code is representable. -/
inductive PyExn where
  | exn : String → PyExn
deriving DecidableEq, Repr

/-- The value a Flask view function returns in this program: a Python dict
from strings to strings, as an association list. -/
def JsonDict : Type := List (String × String)

/-- Escape a string for inclusion in a JSON string literal. -/
def jsonEscape (s : String) : String :=
  (s.replace "\\" "\\\\").replace "\"" "\\\""

/-- Serialize a dict to a JSON object text, as the framework does when a
view function returns a dict. -/
def renderJsonObj (kvs : JsonDict) : String :=
  "\x7b" ++
    String.intercalate ", "
      (kvs.map (fun kv => "\"" ++ jsonEscape kv.1 ++ "\": \"" ++ jsonEscape kv.2 ++ "\"")) ++
  "\x7d"

/-- The root handler `hello` from `src/awesome_api/__init__.py`.  Flask view
functions take no parameter and read the ambient request context; the
`req` argument here is that ambient request, which the source never
consults.  The handler returns the dict mapping `message` to
`Welcome to Awesome API!` and can raise no exception. -/
def hello (req : Request) : Except PyExn JsonDict :=
  Except.ok [("message", "Welcome to Awesome API!")]

/-- A route registered on the application: the URL rule, the optional
explicit method list of the `route` decorator (`none` in the source, since
`app.route` is called with no `methods` argument), and the view function. -/
structure Route where
  rule : String
  methods : Option (List String)
  handler : Request → Except PyExn JsonDict

/-- The application object: the list of routes registered on it. -/
structure App where
  routes : List Route

/-- Modelled from the spec: the framework's defaulting of route methods.
A route registered without an explicit method list serves GET, and the
framework automatically adds HEAD (when GET is served) and OPTIONS. -/
def Route.effectiveMethods (r : Route) : List String :=
  let base := r.methods.getD ["GET"]
  let withHead := if "GET" ∈ base ∧ "HEAD" ∉ base then base ++ ["HEAD"] else base
  if "OPTIONS" ∈ withHead then withHead else withHead ++ ["OPTIONS"]

/-- Modelled from the spec: the framework's default "not found" response
for a path with no matching route. -/
def notFound : Response :=
  { status := 404
    headers := [("Content-Type", "text/html; charset=utf-8")]
    body := "<h1>Not Found</h1>" }

/-- Modelled from the spec: the framework's default "method not allowed"
response for a matched path whose route does not serve the method. -/
def methodNotAllowed (allow : List String) : Response :=
  { status := 405
    headers := [("Allow", String.intercalate ", " allow),
                ("Content-Type", "text/html; charset=utf-8")]
    body := "<h1>Method Not Allowed</h1>" }

/-- Modelled from the spec: the framework-generated automatic OPTIONS
response, listing the allowed methods with an empty body. -/
def optionsResponse (allow : List String) : Response :=
  { status := 200
    headers := [("Allow", String.intercalate ", " allow)]
    body := "" }

/-- Modelled from the spec: the framework's default error response when a
view function raises. -/
def internalServerError : Response :=
  { status := 500
    headers := [("Content-Type", "text/html; charset=utf-8")]
    body := "<h1>Internal Server Error</h1>" }

/-- Run a route's view function on a request and build the response, as the
framework does: a returned dict is serialized to JSON with status 200 and
content type `application/json`; a raised exception becomes the default
500 response. -/
def runHandler (r : Route) (req : Request) : Response :=
  match r.handler req with
  | Except.ok d =>
      { status := 200
        headers := [("Content-Type", "application/json")]
        body := renderJsonObj d }
  | Except.error _ => internalServerError

/-- Modelled from the spec: the framework's dispatcher.  It matches the
request path against the registered rules; with no match it answers with
the default not-found response; on a match it serves the automatic OPTIONS
response, runs the view function (discarding the body for HEAD), or
answers with the default method-not-allowed response when the route does
not serve the method. -/
def dispatch (app : App) (req : Request) : Response :=
  match app.routes.find? (fun r => r.rule == req.path) with
  | none => notFound
  | some r =>
      if req.method = "OPTIONS" then optionsResponse r.effectiveMethods
      else if req.method ∈ r.effectiveMethods then
        if req.method = "HEAD" then
          let resp := runHandler r req
          { resp with body := "" }
        else runHandler r req
      else methodNotAllowed r.effectiveMethods

/-- The application factory `create_app` from
`src/awesome_api/__init__.py`: constructs the application and registers
the single route `/` bound to `hello`, with no explicit method list. -/
def create_app : App :=
  { routes := [{ rule := "/", methods := none, handler := hello }] }

/-- One request/response step at the level of application state: the
response together with the application state afterwards.  The source
handler mutates nothing, so the state after the step is the state before. -/
def dispatchSt (app : App) (req : Request) : Response × App :=
  (dispatch app req, app)

/-- Serve a sequence of requests, threading the application state from each
step into the next; returns the final state and the responses in order. -/
def serve (app : App) : List Request → App × List Response
  | [] => (app, [])
  | req :: rest =>
      let step := dispatchSt app req
      let next := serve step.2 rest
      (next.1, step.1 :: next.2)

/-- A plain `GET /` request with no query, headers or body. -/
def getRootReq : Request :=
  { method := "GET", path := "/", query := [], headers := [], body := "" }

/-- A `HEAD /` request. -/
def headRootReq : Request := { getRootReq with method := "HEAD" }

/-- An `OPTIONS /` request. -/
def optionsRootReq : Request := { getRootReq with method := "OPTIONS" }

/-- A `POST /` request. -/
def postRootReq : Request := { getRootReq with method := "POST" }

/-- A `GET /?foo=bar` request: `GET /` with an extraneous query string. -/
def getRootFooBarReq : Request := { getRootReq with query := [("foo", "bar")] }

end AwesomeApi

namespace AwesomeApi

/-- C1: every HTTP GET request to path `/` receives a response from the
application returned by `create_app` with status code exactly 200. -/
theorem get_root_status_200 (req : Request)
    (hm : req.method = "GET") (hp : req.path = "/") :
    (dispatch create_app req).status = 200 := by
  simp [dispatch, create_app, runHandler, hello, Route.effectiveMethods, hm, hp, List.find?]

/-- Witness for C1 at the concrete plain `GET /` request. -/
theorem get_root_status_200_witness :
    (dispatch create_app getRootReq).status = 200 :=
  get_root_status_200 getRootReq rfl rfl

/-- C2: every HTTP GET request to path `/` receives a response whose body
is the JSON serialization of the mapping with the single key `message`
bound to `Welcome to Awesome API!` and no other key. -/
theorem get_root_body_greeting (req : Request)
    (hm : req.method = "GET") (hp : req.path = "/") :
    (dispatch create_app req).body
      = renderJsonObj [("message", "Welcome to Awesome API!")] := by
  simp [dispatch, create_app, runHandler, hello, Route.effectiveMethods, hm, hp, List.find?]

/-- Witness for C2 at the concrete plain `GET /` request. -/
theorem get_root_body_greeting_witness :
    (dispatch create_app getRootReq).body
      = renderJsonObj [("message", "Welcome to Awesome API!")] :=
  get_root_body_greeting getRootReq rfl rfl

/-- C3: every HTTP GET request to path `/` receives a response carrying the
header `Content-Type: application/json`. -/
theorem get_root_content_type (req : Request)
    (hm : req.method = "GET") (hp : req.path = "/") :
    ("Content-Type", "application/json") ∈ (dispatch create_app req).headers := by
  simp [dispatch, create_app, runHandler, hello, Route.effectiveMethods, hm, hp, List.find?]

/-- Witness for C3 at the concrete plain `GET /` request. -/
theorem get_root_content_type_witness :
    ("Content-Type", "application/json") ∈ (dispatch create_app getRootReq).headers :=
  get_root_content_type getRootReq rfl rfl

/-- C4: the application returned by the zero-argument factory `create_app`
has exactly one route registered, with rule `/`, and that route serves
GET (the framework-defaulted method list being GET, HEAD, OPTIONS). -/
theorem create_app_single_route :
    create_app.routes.map Route.rule = ["/"]
    ∧ create_app.routes.map Route.effectiveMethods = [["GET", "HEAD", "OPTIONS"]] := by
  constructor <;> rfl

/-- C5: issuing the same request N times yields N responses that are all
identical: serving N copies of any request, threading the application
state through every step, produces the N-fold repetition of one fixed
response. -/
theorem replay_identical_responses (n : Nat) (req : Request) :
    (serve create_app (List.replicate n req)).2
      = List.replicate n (dispatch create_app req) := by
  induction n with
  | zero => rfl
  | succ k ih => simp [List.replicate, serve, dispatchSt, ih]

/-- C6: the root handler's output does not depend on any part of the
request: any two GET requests to `/`, whatever their query strings,
headers or bodies, receive identical responses. -/
theorem root_response_request_independent (r1 r2 : Request)
    (h1m : r1.method = "GET") (h1p : r1.path = "/")
    (h2m : r2.method = "GET") (h2p : r2.path = "/") :
    dispatch create_app r1 = dispatch create_app r2 := by
  simp [dispatch, create_app, runHandler, hello, Route.effectiveMethods,
        h1m, h1p, h2m, h2p, List.find?]

/-- Witness for C6: `GET /?foo=bar` receives the same response as the
plain `GET /`. -/
theorem root_response_request_independent_witness :
    dispatch create_app getRootFooBarReq = dispatch create_app getRootReq :=
  root_response_request_independent getRootFooBarReq getRootReq rfl rfl rfl rfl

/-- C7: a POST request to `/` never reaches the view function: whatever
handler the route carries, the dispatcher answers with the framework's
default method-not-allowed response, so the application returned by
`create_app` answers POST `/` with that 405 response and never with the
200 greeting. -/
theorem post_root_method_not_allowed (h : Request → Except PyExn JsonDict)
    (req : Request) (hm : req.method = "POST") (hp : req.path = "/") :
    dispatch { routes := [{ rule := "/", methods := none, handler := h }] } req
      = methodNotAllowed ["GET", "HEAD", "OPTIONS"]
    ∧ dispatch create_app req = methodNotAllowed ["GET", "HEAD", "OPTIONS"]
    ∧ (dispatch create_app req).status ≠ 200 := by
  refine ⟨?_, ?_, ?_⟩ <;>
    simp [dispatch, create_app, methodNotAllowed, Route.effectiveMethods,
          hm, hp, List.find?]

/-- Witness for C7 at the concrete `POST /` request, with the source
handler `hello` on the route. -/
theorem post_root_method_not_allowed_witness :
    dispatch { routes := [{ rule := "/", methods := none, handler := hello }] } postRootReq
      = methodNotAllowed ["GET", "HEAD", "OPTIONS"]
    ∧ dispatch create_app postRootReq = methodNotAllowed ["GET", "HEAD", "OPTIONS"]
    ∧ (dispatch create_app postRootReq).status ≠ 200 :=
  post_root_method_not_allowed hello postRootReq rfl rfl

/-- C8: the root handler is total and cannot fail: on every GET request to
`/` it returns the greeting dict through the ok branch, never an
exception, and the dispatched response is never the framework's
internal-server-error response. -/
theorem hello_cannot_fail (req : Request)
    (hm : req.method = "GET") (hp : req.path = "/") :
    hello req = Except.ok [("message", "Welcome to Awesome API!")]
    ∧ dispatch create_app req ≠ internalServerError := by
  refine ⟨rfl, ?_⟩
  simp [dispatch, create_app, runHandler, hello, Route.effectiveMethods,
        internalServerError, hm, hp, List.find?]

/-- Witness for C8 at the concrete plain `GET /` request. -/
theorem hello_cannot_fail_witness :
    hello getRootReq = Except.ok [("message", "Welcome to Awesome API!")]
    ∧ dispatch create_app getRootReq ≠ internalServerError :=
  hello_cannot_fail getRootReq rfl rfl

/-- C9: handling requests leaves the application state unchanged: after
serving any sequence of requests, threading the state of each step into
the next, the application is exactly the one `create_app` returned. -/
theorem serve_preserves_app (reqs : List Request) :
    (serve create_app reqs).1 = create_app := by
  induction reqs with
  | nil => rfl
  | cons req rest ih => simp [serve, dispatchSt, ih]

/-- C10: the route registered without an explicit method list also serves
HEAD and OPTIONS on `/`: HEAD receives the GET response's status and
headers with an empty body, and OPTIONS is not rejected with 405, so GET
is not the only method served on `/`. -/
theorem head_options_served :
    (dispatch create_app headRootReq).status = (dispatch create_app getRootReq).status
    ∧ (dispatch create_app headRootReq).headers = (dispatch create_app getRootReq).headers
    ∧ (dispatch create_app headRootReq).body = ""
    ∧ (dispatch create_app headRootReq).status ≠ 405
    ∧ (dispatch create_app optionsRootReq).status ≠ 405 := by
  refine ⟨rfl, rfl, rfl, ?_, ?_⟩ <;> decide

end AwesomeApi
